import Mathlib

/-
Verification of the alarm-clock application in src/Alram/app.py.

Instants are modelled as natural numbers counting seconds since an
epoch that falls on a midnight; a calendar date is the number of whole
days since that epoch, and a time-of-day is the number of seconds past
midnight.  The process-wide alarm state (alarm_time, alarm_triggered,
the status label text, the visibility of the snooze/stop buttons) is a
record threaded explicitly through the handlers.  A message box shown
during a handler call is modelled as an `Option String` paired with the
resulting state.  Playback threads started by check_alarm are recorded
in a `playRequests` list holding the target instant of each request.
-/

namespace Alram

/-- Seconds in one day, used when set_alarm pushes the target to tomorrow. -/
def secondsPerDay : Nat := 86400

/-- The hour component (datetime.hour) of an instant. -/
def hourOf (t : Nat) : Nat := t / 3600 % 24

/-- The minute component (datetime.minute) of an instant. -/
def minuteOf (t : Nat) : Nat := t / 60 % 60

/-- The second component (datetime.second) of an instant. -/
def secondOf (t : Nat) : Nat := t % 60

/-- The calendar date (datetime.now().date()) of an instant: whole days since the epoch. -/
def dateOf (t : Nat) : Nat := t / secondsPerDay

/-- datetime.combine(date, time): the instant at time-of-day `tod` of day `d`. -/
def combine (d tod : Nat) : Nat := d * secondsPerDay + tod

/-- The global alarm state of app.py plus the UI facts the handlers mutate. -/
structure AlarmState where
  alarm_time : Option Nat
  alarm_triggered : Bool
  status : String
  snoozeVisible : Bool
  stopVisible : Bool
  playRequests : List Nat
deriving DecidableEq

/-- snooze_minutes = 5 in app.py. -/
def snooze_minutes : Nat := 5

/-- Value of one or two digit characters, as matched by strptime for %H, %M, %S. -/
def twoDigit? (l : List Char) : Option Nat :=
  match l with
  | [c] => if c.isDigit then some (c.toNat - 48) else none
  | [c1, c2] => if c1.isDigit ∧ c2.isDigit then some ((c1.toNat - 48) * 10 + (c2.toNat - 48)) else none
  | _ => none

/-- Split a character list at every colon, keeping empty fields. -/
def splitOnColon : List Char → List (List Char)
  | [] => [[]]
  | c :: rest =>
    match splitOnColon rest with
    | [] => if c = ':' then [[], []] else [[c]]
    | g :: gs => if c = ':' then [] :: g :: gs else (c :: g) :: gs

/-- datetime.strptime(input, "%H:%M:%S").time(): three colon-separated
one-or-two-digit fields with hour below 24 and minute and second below 60
(a parse whose fields are out of range raises ValueError, like any other
failure).  Returns the time-of-day in seconds past midnight. -/
def strptime_hms (input : String) : Option Nat :=
  match splitOnColon input.toList with
  | [hs, ms, ss] =>
    match twoDigit? hs, twoDigit? ms, twoDigit? ss with
    | some h, some m, some s =>
      if h ≤ 23 ∧ m ≤ 59 ∧ s ≤ 59 then some (h * 3600 + m * 60 + s) else none
    | _, _, _ => none
  | _ => none

/-- Zero-padding of strftime numeric fields. -/
def pad2 (n : Nat) : String := if n < 10 then "0" ++ toString n else toString n

/-- strftime("%H:%M:%S") of an instant. -/
def formatHMS (t : Nat) : String :=
  pad2 (hourOf t) ++ ":" ++ pad2 (minuteOf t) ++ ":" ++ pad2 (secondOf t)

/-- set_alarm in app.py.  `input` is the text of the entry widget and `now`
the current instant.  Returns the new state and the message box shown, if
any.  The placeholder is rejected first; then the input is parsed, the
parsed time-of-day is combined with today, a target at or before now is
moved to tomorrow, and alarm_triggered is reset with both buttons hidden.
A parse failure shows an error dialog and sets the status text, leaving
the alarm variables untouched. -/
def set_alarm (input : String) (now : Nat) (s : AlarmState) : AlarmState × Option String :=
  if input = "HH:MM:SS" then
    (s, some "Please enter a valid alarm time (HH:MM:SS).")
  else
    match strptime_hms input with
    | some tod =>
      let today := dateOf now
      let alarm_datetime_today := combine today tod
      if alarm_datetime_today ≤ now then
        let t := alarm_datetime_today + secondsPerDay
        ({ s with alarm_time := some t,
                  status := "Alarm set for tomorrow at " ++ formatHMS t,
                  alarm_triggered := false,
                  snoozeVisible := false, stopVisible := false }, none)
      else
        ({ s with alarm_time := some alarm_datetime_today,
                  status := "Alarm set for today at " ++ formatHMS alarm_datetime_today,
                  alarm_triggered := false,
                  snoozeVisible := false, stopVisible := false }, none)
    | none =>
      ({ s with status := "Invalid format! Use HH:MM:SS" },
       some "Invalid time format! Please use HH:MM:SS (e.g., 14:30:00).")

/-- check_alarm in app.py, run on each clock tick at instant `now`.  With an
alarm set and not yet triggered, a match of the current hour and minute with
the target hour and minute, together with now at or past the target, fires
the alarm: triggered is set, the status shows the alarm text, a playback
thread is started for the target, and the snooze and stop buttons appear.
Once triggered, a tick in the same hour with the minute advanced past the
target minute clears everything back to the idle state. -/
def check_alarm (now : Nat) (s : AlarmState) : AlarmState :=
  match s.alarm_time with
  | none => s
  | some t =>
    if s.alarm_triggered = false ∧ hourOf now = hourOf t ∧ minuteOf now = minuteOf t then
      if t ≤ now then
        { s with alarm_triggered := true,
                 status := "ALARM! ALARM! ALARM!",
                 playRequests := s.playRequests ++ [t],
                 snoozeVisible := true, stopVisible := true }
      else s
    else if s.alarm_triggered = true ∧ hourOf now = hourOf t ∧ minuteOf t < minuteOf now then
      { s with status := "",
               snoozeVisible := false, stopVisible := false,
               alarm_time := none, alarm_triggered := false }
    else s

/-- play_alarm_sound in app.py.  `fileExists` says whether the fixed wav file
is on disk and `playbackError` is the message of the exception raised by
playsound, when it raises.  A missing file shows an error dialog and
returns; a playback exception shows a dialog and writes the status text.
The alarm variables are never touched. -/
def play_alarm_sound (fileExists : Bool) (playbackError : Option String)
    (s : AlarmState) : AlarmState × Option String :=
  if fileExists = false then
    (s, some "Alarm sound file mixkit-alert-alarm-1005.wav not found. Please ensure it is in the same directory.")
  else
    match playbackError with
    | none => (s, none)
    | some e =>
      ({ s with status := "Audio Error: " ++ e },
       some ("Could not play alarm sound: " ++ e))

/-- stop_alarm in app.py: hides both buttons, resets triggered, clears the
target and shows a dialog saying the current sound finishes naturally. -/
def stop_alarm (s : AlarmState) : AlarmState × Option String :=
  ({ s with snoozeVisible := false, stopVisible := false,
            alarm_triggered := false, alarm_time := none,
            status := "Alarm stopped. Set a new alarm." },
   some "Alarm will finish playing its current sound. Set a new alarm or snooze.")

/-- snooze in app.py: hides both buttons, re-arms the alarm for
snooze_minutes minutes after `now` and resets triggered. -/
def snooze (now : Nat) (s : AlarmState) : AlarmState :=
  { s with snoozeVisible := false, stopVisible := false,
           alarm_time := some (now + snooze_minutes * 60),
           alarm_triggered := false,
           status := "Snoozed for " ++ toString snooze_minutes ++
             " minutes. Next alarm at " ++ formatHMS (now + snooze_minutes * 60) }

/-- The user and timer events that mutate the alarm state. -/
inductive Event where
  | setAlarmEvt (input : String) (now : Nat)
  | tickEvt (now : Nat)
  | snoozeEvt (now : Nat)
  | stopEvt
deriving DecidableEq

/-- One event applied to the state (message boxes discarded). -/
def step (s : AlarmState) (e : Event) : AlarmState :=
  match e with
  | .setAlarmEvt input now => (set_alarm input now s).1
  | .tickEvt now => check_alarm now s
  | .snoozeEvt now => snooze now s
  | .stopEvt => (stop_alarm s).1

/-- The state at startup: no alarm, not triggered, buttons hidden. -/
def initState : AlarmState :=
  { alarm_time := none, alarm_triggered := false, status := "",
    snoozeVisible := false, stopVisible := false, playRequests := [] }

/-- The state after a sequence of events from startup. -/
def run (es : List Event) : AlarmState := es.foldl step initState

/-- The first instant of the minute after the one containing `t`. -/
def nextMinuteStart (t : Nat) : Nat := (t / 60 + 1) * 60

end Alram

namespace Alram

/-- The placeholder text never parses. -/
lemma strptime_placeholder : strptime_hms "HH:MM:SS" = none := by decide

/-- Claim C1: for every input that parses as a valid HH:MM:SS time-of-day,
set_alarm stores today + that time-of-day when that instant is strictly
after now, stores tomorrow + that time-of-day when it is at or before now,
and resets triggered to false. -/
theorem c1_set_alarm_resolution (input : String) (now : Nat) (s : AlarmState) (tod : Nat)
    (hp : strptime_hms input = some tod) :
    (now < combine (dateOf now) tod →
      (set_alarm input now s).1.alarm_time = some (combine (dateOf now) tod)) ∧
    (combine (dateOf now) tod ≤ now →
      (set_alarm input now s).1.alarm_time = some (combine (dateOf now) tod + secondsPerDay)) ∧
    (set_alarm input now s).1.alarm_triggered = false := by
  have hph : input ≠ "HH:MM:SS" := by
    intro h
    rw [h, strptime_placeholder] at hp
    exact Option.noConfusion hp
  by_cases hle : combine (dateOf now) tod ≤ now
  · simp only [set_alarm, if_neg hph, hp, if_pos hle]
    exact ⟨fun h => absurd hle (by omega), fun _ => trivial, trivial⟩
  · simp only [set_alarm, if_neg hph, hp, if_neg hle]
    exact ⟨fun _ => trivial, fun h => absurd h hle, trivial⟩

/-- Claim C1 witness: at now = 0 with input 00:00:05 the alarm is set for
today at instant 5 with triggered false. -/
theorem c1_witness :
    (0 < combine (dateOf 0) 5 →
      (set_alarm "00:00:05" 0 initState).1.alarm_time = some (combine (dateOf 0) 5)) ∧
    (combine (dateOf 0) 5 ≤ 0 →
      (set_alarm "00:00:05" 0 initState).1.alarm_time = some (combine (dateOf 0) 5 + secondsPerDay)) ∧
    (set_alarm "00:00:05" 0 initState).1.alarm_triggered = false :=
  c1_set_alarm_resolution "00:00:05" 0 initState 5 (by decide)

end Alram

namespace Alram

/-- Claim C2: on a tick in the armed state the evaluator fires — sets
triggered, shows the alarm status, starts one playback for the target and
reveals both buttons — precisely when the current hour and minute equal
the target hour and minute and now is at or past the target; in every
other case the tick leaves the state unchanged. -/
theorem c2_tick_fires_iff (now t : Nat) (s : AlarmState)
    (ht : s.alarm_time = some t) (htr : s.alarm_triggered = false) :
    ((hourOf now = hourOf t ∧ minuteOf now = minuteOf t ∧ t ≤ now) →
      check_alarm now s =
        { s with alarm_triggered := true,
                 status := "ALARM! ALARM! ALARM!",
                 playRequests := s.playRequests ++ [t],
                 snoozeVisible := true, stopVisible := true }) ∧
    (¬(hourOf now = hourOf t ∧ minuteOf now = minuteOf t ∧ t ≤ now) →
      check_alarm now s = s) := by
  constructor
  · intro h
    simp only [check_alarm, ht, if_pos (And.intro htr (And.intro h.1 h.2.1)), if_pos h.2.2]
  · intro h
    by_cases hmm : hourOf now = hourOf t ∧ minuteOf now = minuteOf t
    · have hlt : ¬ t ≤ now := fun hle => h ⟨hmm.1, hmm.2, hle⟩
      simp only [check_alarm, ht, if_pos (And.intro htr (And.intro hmm.1 hmm.2)), if_neg hlt]
    · have h1 : ¬(s.alarm_triggered = false ∧ hourOf now = hourOf t ∧ minuteOf now = minuteOf t) :=
        fun hc => hmm ⟨hc.2.1, hc.2.2⟩
      have h2 : ¬(s.alarm_triggered = true ∧ hourOf now = hourOf t ∧ minuteOf t < minuteOf now) :=
        fun hc => by rw [htr] at hc; exact Bool.noConfusion hc.1
      simp only [check_alarm, ht, if_neg h1, if_neg h2]

/-- Claim C2 witness: armed at target 5, a tick at instant 5 fires and a
tick at instant 4 changes nothing. -/
theorem c2_witness :
    (((hourOf 5 = hourOf 5 ∧ minuteOf 5 = minuteOf 5 ∧ 5 ≤ 5) →
      check_alarm 5 ⟨some 5, false, "", false, false, []⟩ =
        { alarm_time := some 5, alarm_triggered := true,
          status := "ALARM! ALARM! ALARM!",
          snoozeVisible := true, stopVisible := true,
          playRequests := ([] : List Nat) ++ [5] }) ∧
    (¬(hourOf 5 = hourOf 5 ∧ minuteOf 5 = minuteOf 5 ∧ 5 ≤ 5) →
      check_alarm 5 ⟨some 5, false, "", false, false, []⟩ =
        ⟨some 5, false, "", false, false, []⟩)) :=
  c2_tick_fires_iff 5 5 ⟨some 5, false, "", false, false, []⟩ rfl rfl

/-- Claim C3 counterexample: a ringing alarm whose target 00:59:00
(instant 3540) has minute 59.  The tick at the start of the next minute,
01:00:00 (instant 3600), leaves the whole ringing state unchanged —
alarm_time is still set, triggered still true — because the clearing
branch requires the current hour to equal the target hour. -/
theorem c3_counterexample :
    check_alarm (nextMinuteStart 3540)
        ⟨some 3540, true, "ALARM! ALARM! ALARM!", true, true, [3540]⟩ =
      ⟨some 3540, true, "ALARM! ALARM! ALARM!", true, true, [3540]⟩ ∧
    (⟨some 3540, true, "ALARM! ALARM! ALARM!", true, true, [3540]⟩ : AlarmState).alarm_time ≠ none := by
  constructor
  · decide
  · decide

/-- Claim C3 (amended): for a ringing alarm at target T whose minute is not
59 — so the next minute still lies in the same hour — the tick at the start
of the next minute after T returns the state to idle: status cleared, both
buttons hidden, alarm_time cleared, triggered reset.  (When T is at minute
59 the clearing guard fails, see the counterexample.) -/
theorem c3_ring_clears_on_next_minute (t : Nat) (s : AlarmState)
    (ht : s.alarm_time = some t) (htr : s.alarm_triggered = true)
    (hm : minuteOf t < 59) :
    check_alarm (nextMinuteStart t) s =
      { s with status := "", snoozeVisible := false, stopVisible := false,
               alarm_time := none, alarm_triggered := false } := by
  have h1 : hourOf (nextMinuteStart t) = hourOf t := by
    unfold minuteOf at hm
    unfold hourOf nextMinuteStart
    omega
  have h2 : minuteOf t < minuteOf (nextMinuteStart t) := by
    unfold minuteOf at hm ⊢
    unfold nextMinuteStart
    omega
  have hno : ¬(s.alarm_triggered = false ∧ hourOf (nextMinuteStart t) = hourOf t ∧
      minuteOf (nextMinuteStart t) = minuteOf t) :=
    fun hc => by rw [htr] at hc; exact Bool.noConfusion hc.1
  simp only [check_alarm, ht, if_neg hno, if_pos (And.intro htr (And.intro h1 h2))]

/-- Claim C3 witness: ringing at target 00:58:00 (instant 3480, minute 58),
the tick at 00:59:00 clears everything back to idle. -/
theorem c3_witness :
    check_alarm (nextMinuteStart 3480)
        ⟨some 3480, true, "ALARM! ALARM! ALARM!", true, true, [3480]⟩ =
      ⟨none, false, "", false, false, [3480]⟩ :=
  c3_ring_clears_on_next_minute 3480
    ⟨some 3480, true, "ALARM! ALARM! ALARM!", true, true, [3480]⟩ rfl rfl (by decide)

end Alram

namespace Alram

/-- Claim C4: snooze invoked while ringing re-arms the alarm for exactly
snooze_minutes minutes after the call instant, resets triggered and hides
both buttons, returning the state to armed. -/
theorem c4_snooze_rearms (now : Nat) (s : AlarmState)
    (hring : s.alarm_triggered = true) :
    (snooze now s).alarm_time = some (now + snooze_minutes * 60) ∧
    (snooze now s).alarm_triggered = false ∧
    (snooze now s).snoozeVisible = false ∧
    (snooze now s).stopVisible = false :=
  ⟨rfl, rfl, rfl, rfl⟩

/-- Claim C4 witness: snoozing a ringing alarm at instant 100 re-arms it
for instant 400. -/
theorem c4_witness :
    (snooze 100 ⟨some 90, true, "ALARM! ALARM! ALARM!", true, true, [90]⟩).alarm_time =
        some (100 + snooze_minutes * 60) ∧
    (snooze 100 ⟨some 90, true, "ALARM! ALARM! ALARM!", true, true, [90]⟩).alarm_triggered = false ∧
    (snooze 100 ⟨some 90, true, "ALARM! ALARM! ALARM!", true, true, [90]⟩).snoozeVisible = false ∧
    (snooze 100 ⟨some 90, true, "ALARM! ALARM! ALARM!", true, true, [90]⟩).stopVisible = false :=
  c4_snooze_rearms 100 ⟨some 90, true, "ALARM! ALARM! ALARM!", true, true, [90]⟩ rfl

/-- Claim C5: stop_alarm invoked while ringing clears alarm_time, resets
triggered and hides both buttons, returning the state to idle. -/
theorem c5_stop_idles (s : AlarmState) (hring : s.alarm_triggered = true) :
    (stop_alarm s).1.alarm_time = none ∧
    (stop_alarm s).1.alarm_triggered = false ∧
    (stop_alarm s).1.snoozeVisible = false ∧
    (stop_alarm s).1.stopVisible = false :=
  ⟨rfl, rfl, rfl, rfl⟩

/-- Claim C5 witness: stopping a ringing alarm clears everything. -/
theorem c5_witness :
    (stop_alarm ⟨some 90, true, "ALARM! ALARM! ALARM!", true, true, [90]⟩).1.alarm_time = none ∧
    (stop_alarm ⟨some 90, true, "ALARM! ALARM! ALARM!", true, true, [90]⟩).1.alarm_triggered = false ∧
    (stop_alarm ⟨some 90, true, "ALARM! ALARM! ALARM!", true, true, [90]⟩).1.snoozeVisible = false ∧
    (stop_alarm ⟨some 90, true, "ALARM! ALARM! ALARM!", true, true, [90]⟩).1.stopVisible = false :=
  c5_stop_idles ⟨some 90, true, "ALARM! ALARM! ALARM!", true, true, [90]⟩ rfl

/-- Claim C6: the placeholder HH:MM:SS, and any input that fails to parse,
make set_alarm show an error dialog and leave alarm_time and
alarm_triggered exactly as they were. -/
theorem c6_bad_input_preserved (input : String) (now : Nat) (s : AlarmState)
    (h : input = "HH:MM:SS" ∨ strptime_hms input = none) :
    (set_alarm input now s).1.alarm_time = s.alarm_time ∧
    (set_alarm input now s).1.alarm_triggered = s.alarm_triggered ∧
    (set_alarm input now s).2.isSome = true := by
  by_cases hph : input = "HH:MM:SS"
  · simp only [set_alarm, if_pos hph]
    exact ⟨trivial, trivial, rfl⟩
  · have hn : strptime_hms input = none := h.resolve_left hph
    simp only [set_alarm, if_neg hph, hn]
    exact ⟨trivial, trivial, rfl⟩

/-- Claim C6 witness: the malformed input 25:99:99 is rejected while an
armed alarm at instant 90 stays armed. -/
theorem c6_witness :
    (set_alarm "25:99:99" 10 ⟨some 90, false, "", false, false, []⟩).1.alarm_time = some 90 ∧
    (set_alarm "25:99:99" 10 ⟨some 90, false, "", false, false, []⟩).1.alarm_triggered = false ∧
    (set_alarm "25:99:99" 10 ⟨some 90, false, "", false, false, []⟩).2.isSome = true :=
  c6_bad_input_preserved "25:99:99" 10 ⟨some 90, false, "", false, false, []⟩
    (Or.inr (by decide))

/-- Claim C7: play_alarm_sound with the audio file absent, or with the
playback call raising, shows an error dialog and leaves alarm_time and
alarm_triggered untouched. -/
theorem c7_sound_failure_frame (fileExists : Bool) (playbackError : Option String)
    (s : AlarmState) (h : fileExists = false ∨ playbackError.isSome = true) :
    (play_alarm_sound fileExists playbackError s).1.alarm_time = s.alarm_time ∧
    (play_alarm_sound fileExists playbackError s).1.alarm_triggered = s.alarm_triggered ∧
    (play_alarm_sound fileExists playbackError s).2.isSome = true := by
  cases fileExists with
  | false => exact ⟨rfl, rfl, rfl⟩
  | true =>
    cases playbackError with
    | none =>
      rcases h with h | h
      · exact Bool.noConfusion h
      · exact Bool.noConfusion h
    | some e => exact ⟨rfl, rfl, rfl⟩

/-- Claim C7 witness: with the file missing the ringing state keeps its
alarm fields and a dialog is shown. -/
theorem c7_witness :
    (play_alarm_sound false none ⟨some 90, true, "ALARM! ALARM! ALARM!", true, true, [90]⟩).1.alarm_time = some 90 ∧
    (play_alarm_sound false none ⟨some 90, true, "ALARM! ALARM! ALARM!", true, true, [90]⟩).1.alarm_triggered = true ∧
    (play_alarm_sound false none ⟨some 90, true, "ALARM! ALARM! ALARM!", true, true, [90]⟩).2.isSome = true :=
  c7_sound_failure_frame false none ⟨some 90, true, "ALARM! ALARM! ALARM!", true, true, [90]⟩
    (Or.inl rfl)

/-- Claim C9: once the alarm has fired, any further tick whose hour and
minute still equal the target hour and minute changes nothing at all — in
particular no second playback is started for the target. -/
theorem c9_no_refire_same_minute (now t : Nat) (s : AlarmState)
    (ht : s.alarm_time = some t) (htr : s.alarm_triggered = true)
    (hh : hourOf now = hourOf t) (hm : minuteOf now = minuteOf t) :
    check_alarm now s = s := by
  have h1 : ¬(s.alarm_triggered = false ∧ hourOf now = hourOf t ∧ minuteOf now = minuteOf t) :=
    fun hc => by rw [htr] at hc; exact Bool.noConfusion hc.1
  have h2 : ¬(s.alarm_triggered = true ∧ hourOf now = hourOf t ∧ minuteOf t < minuteOf now) :=
    fun hc => by rw [hm] at hc; exact absurd hc.2.2 (lt_irrefl _)
  simp only [check_alarm, ht, if_neg h1, if_neg h2]

/-- Claim C9 witness: ringing at target 5, the tick at instant 30 in the
same minute changes nothing. -/
theorem c9_witness :
    check_alarm 30 ⟨some 5, true, "ALARM! ALARM! ALARM!", true, true, [5]⟩ =
      ⟨some 5, true, "ALARM! ALARM! ALARM!", true, true, [5]⟩ :=
  c9_no_refire_same_minute 30 5 ⟨some 5, true, "ALARM! ALARM! ALARM!", true, true, [5]⟩
    rfl rfl rfl rfl

/-- Claim C10: snooze has no ringing guard — from any state whatsoever it
sets alarm_time to the call instant plus five minutes, resets triggered
and hides both buttons, silently replacing any previously armed target. -/
theorem c10_snooze_unguarded (now : Nat) (s : AlarmState) :
    (snooze now s).alarm_time = some (now + 5 * 60) ∧
    (snooze now s).alarm_triggered = false ∧
    (snooze now s).snoozeVisible = false ∧
    (snooze now s).stopVisible = false :=
  ⟨rfl, rfl, rfl, rfl⟩

end Alram

namespace Alram

/-- One event preserves the playback invariant: whenever triggered is
true, the target is set and a playback was requested for it. -/
lemma step_preserves_inv (s : AlarmState) (e : Event)
    (h : s.alarm_triggered = true → ∃ t, s.alarm_time = some t ∧ t ∈ s.playRequests) :
    (step s e).alarm_triggered = true →
      ∃ t, (step s e).alarm_time = some t ∧ t ∈ (step s e).playRequests := by
  cases e with
  | setAlarmEvt input now =>
    simp only [step]
    by_cases hph : input = "HH:MM:SS"
    · simp only [set_alarm, if_pos hph]
      exact h
    · cases hp : strptime_hms input with
      | none =>
        simp only [set_alarm, if_neg hph, hp]
        exact h
      | some tod =>
        by_cases hle : combine (dateOf now) tod ≤ now
        · simp only [set_alarm, if_neg hph, hp, if_pos hle]
          intro hc
          exact Bool.noConfusion hc
        · simp only [set_alarm, if_neg hph, hp, if_neg hle]
          intro hc
          exact Bool.noConfusion hc
  | tickEvt now =>
    simp only [step]
    cases ht : s.alarm_time with
    | none =>
      simp only [check_alarm, ht]
      rw [ht] at h
      exact h
    | some t =>
      by_cases h1 : s.alarm_triggered = false ∧ hourOf now = hourOf t ∧ minuteOf now = minuteOf t
      · by_cases h2 : t ≤ now
        · simp only [check_alarm, ht, if_pos h1, if_pos h2]
          intro _
          exact ⟨t, rfl, List.mem_append_right _ (List.mem_singleton_self t)⟩
        · simp only [check_alarm, ht, if_pos h1, if_neg h2]
          rw [ht] at h
          exact h
      · by_cases h3 : s.alarm_triggered = true ∧ hourOf now = hourOf t ∧ minuteOf t < minuteOf now
        · simp only [check_alarm, ht, if_neg h1, if_pos h3]
          intro hc
          exact Bool.noConfusion hc
        · simp only [check_alarm, ht, if_neg h1, if_neg h3]
          rw [ht] at h
          exact h
  | snoozeEvt now =>
    intro hc
    exact Bool.noConfusion hc
  | stopEvt =>
    intro hc
    exact Bool.noConfusion hc

/-- Folding events preserves the playback invariant from any start state. -/
lemma foldl_preserves_inv (es : List Event) :
    ∀ s : AlarmState,
      (s.alarm_triggered = true → ∃ t, s.alarm_time = some t ∧ t ∈ s.playRequests) →
      ((es.foldl step s).alarm_triggered = true →
        ∃ t, (es.foldl step s).alarm_time = some t ∧ t ∈ (es.foldl step s).playRequests) := by
  induction es with
  | nil => exact fun s hs => hs
  | cons e rest ih =>
    intro s hs
    exact ih (step s e) (step_preserves_inv s e hs)

/-- Claim C8: in every state reachable from startup by set_alarm, ticks,
snooze and stop, a true triggered flag implies alarm_time holds some
target and a playback was requested for that very target. -/
theorem c8_triggered_invariant (es : List Event)
    (h : (run es).alarm_triggered = true) :
    ∃ t, (run es).alarm_time = some t ∧ t ∈ (run es).playRequests :=
  foldl_preserves_inv es initState (fun hc => Bool.noConfusion hc) h

/-- Claim C8 witness: set an alarm for instant 5 at time 0, tick at 5;
the reached state is triggered and playback was requested for target 5. -/
theorem c8_witness :
    ∃ t, (run [Event.setAlarmEvt "00:00:05" 0, Event.tickEvt 5]).alarm_time = some t ∧
      t ∈ (run [Event.setAlarmEvt "00:00:05" 0, Event.tickEvt 5]).playRequests :=
  c8_triggered_invariant [Event.setAlarmEvt "00:00:05" 0, Event.tickEvt 5] (by decide)

end Alram
